import Mathlib

/-!
Shallow embedding of `wsl2-get-display` (`src/main.rs`): a CLI tool that
resolves the WSL2 host IP (from `/etc/resolv.conf` or from the default route
reported by `ip -4 -json route show default`) and probes the TCP port
`6000 + display_number` with a bounded, retryable connect, mapping the outcome
to stdout text and a process exit code.

I/O boundaries (file contents, the decoded JSON of the route command, and the
outcome of each TCP connect attempt) are passed in as explicit values; IP-address
parsing (Rust `str::parse::<IpAddr>`, standard library) is an abstract parameter
`parseIp : String → Option α`. Everything else is translated directly from the
source.
-/

namespace WslGetDisplay

instance {ε α : Type} [DecidableEq ε] [DecidableEq α] : DecidableEq (Except ε α)
  | .ok a, .ok b =>
    if h : a = b then .isTrue (by rw [h]) else .isFalse (fun hh => h (Except.ok.inj hh))
  | .ok _, .error _ => .isFalse (fun h => Except.noConfusion h)
  | .error _, .ok _ => .isFalse (fun h => Except.noConfusion h)
  | .error e, .error f =>
    if h : e = f then .isTrue (by rw [h]) else .isFalse (fun hh => h (Except.error.inj hh))

/-- X11 port number is 6000 plus the display number (`DISPLAY_PORT_OFFSET`). -/
def DISPLAY_PORT_OFFSET : Nat := 6000

/-! ### Rust string primitives used by `host_ip_from_resolv_conf` -/

/-- Rust `char::is_ascii_whitespace`: space, tab, line feed, form feed, carriage
return. -/
def isAsciiWhitespace (c : Char) : Bool :=
  c = ' ' || c = '\t' || c = '\n' || c = Char.ofNat 12 || c = '\r'

/-- Accumulator-based splitter: `acc` holds the current word, reversed. -/
def splitAsciiWhitespaceAux : List Char → List Char → List String
  | [], [] => []
  | [], acc => [String.mk acc.reverse]
  | c :: cs, acc =>
    if isAsciiWhitespace c then
      match acc with
      | [] => splitAsciiWhitespaceAux cs []
      | _ :: _ => String.mk acc.reverse :: splitAsciiWhitespaceAux cs []
    else
      splitAsciiWhitespaceAux cs (c :: acc)

/-- Rust `str::split_ascii_whitespace`: whitespace-separated words, empty
substrings skipped. -/
def splitAsciiWhitespace (s : String) : List String :=
  splitAsciiWhitespaceAux s.toList []

/-- Line scanner: `acc` holds the current line so far, reversed, without the
terminating line feed. On a line feed, a carriage return just before it is also
stripped (head of `acc`). A final piece with no line feed is returned as-is. -/
def rustLinesAux : List Char → List Char → List String
  | [], [] => []
  | [], acc => [String.mk acc.reverse]
  | c :: cs, acc =>
    if c = '\n' then
      (match acc with
        | '\r' :: acc₂ => String.mk acc₂.reverse
        | _ => String.mk acc.reverse) :: rustLinesAux cs []
    else
      rustLinesAux cs (c :: acc)

/-- Rust `str::lines`: split at each line feed or carriage-return +
line feed pair; the final line ending is optional, and a trailing carriage
return without a line feed after it is kept. -/
def rustLines (s : String) : List String :=
  rustLinesAux s.toList []

/-! ### Strategy A: `host_ip_from_resolv_conf` -/

/-- The per-line match of the `find_map` in `host_ip_from_resolv_conf`: take the
first two whitespace-separated words; if they are `Some "nameserver"` and
`Some addr`, produce `addr`. -/
def nsToken (line : String) : Option String :=
  match splitAsciiWhitespace line with
  | "nameserver" :: addr :: _ => some addr
  | _ => none

/-- The `lines().find_map(...)` scan of `host_ip_from_resolv_conf`. -/
def find_nameserver (lns : List String) : Option String :=
  lns.findSome? nsToken

/-- Failure cases of `host_ip_from_resolv_conf` after the file has been read and
decoded: `notFound` is the `anyhow!("unable to find host IP address in
/etc/resolv.conf")` error, `parseError` the `context("unable to parse host IP
address")` error. -/
inductive ResolvError
  | notFound
  | parseError
deriving DecidableEq, Repr

/-- `host_ip_from_resolv_conf`, with the file content passed in and IP parsing
abstracted as `parseIp`. -/
def host_ip_from_resolv_conf {α : Type} (parseIp : String → Option α)
    (content : String) : Except ResolvError α :=
  match find_nameserver (rustLines content) with
  | none => .error .notFound
  | some tok =>
    match parseIp tok with
    | some ip => .ok ip
    | none => .error .parseError

/-! ### Strategy B: `host_ip_from_route` -/

/-- Minimal JSON value model (`serde_json::Value`). -/
inductive Json
  | null
  | bool (b : Bool)
  | num (n : Int)
  | str (s : String)
  | arr (elems : List Json)
  | obj (fields : List (String × Json))

/-- `serde_json` indexing `value[key]`: field lookup on an object, `Null` for a
missing key or a non-object. -/
def Json.index (j : Json) (key : String) : Json :=
  match j with
  | .obj fields =>
    match fields.find? (fun kv => kv.1 == key) with
    | some kv => kv.2
    | none => .null
  | _ => .null

/-- `serde_json Value::as_str`. -/
def Json.as_str : Json → Option String
  | .str s => some s
  | _ => none

/-- Failure cases of `host_ip_from_route` after the command output has been
decoded as JSON: `notAnArray` is `bail!("expected JSON array, got ...")`,
`notFound` is `bail!("empty json array")`, `dstNotDefault` is
`ensure!(... "route destination is not default ...")`, `gatewayMissing` is
`anyhow!("default gateway not found (or is not a string)")`, and
`gatewayParse` is `context("failed to parse default gateway IP address")`. -/
inductive RouteError
  | notAnArray
  | notFound
  | dstNotDefault
  | gatewayMissing
  | gatewayParse
deriving DecidableEq, Repr

/-- Processing of the single route record selected from the JSON array: check
`dst == "default"`, then extract and parse the `gateway` field. -/
def route_from_record {α : Type} (parseIp : String → Option α) (record : Json) :
    Except RouteError α :=
  if (record.index "dst").as_str = some "default" then
    match (record.index "gateway").as_str with
    | none => .error .gatewayMissing
    | some g =>
      match parseIp g with
      | some ip => .ok ip
      | none => .error .gatewayParse
  else
    .error .dstNotDefault

/-- `host_ip_from_route`, starting from the decoded JSON of
`ip -4 -json route show default` (command execution, its exit status and JSON
decoding are I/O, handled before this point). The `Bool` component records
whether the non-fatal multiple-routes warning was printed to stderr. -/
def host_ip_from_route {α : Type} (parseIp : String → Option α) (js : Json) :
    Except RouteError α × Bool :=
  match js with
  | .arr [] => (.error .notFound, false)
  | .arr (record :: rest) => (route_from_record parseIp record, !rest.isEmpty)
  | _ => (.error .notAnArray, false)

/-! ### The probe loop, `run` and `main` -/

/-- Outcome of one `TcpStream::connect_timeout` call, as classified by the
`match e.kind()` in `run`: success, `ErrorKind::TimedOut`,
`ErrorKind::ConnectionRefused`, or any other error kind with its message. -/
inductive ConnectResult
  | success
  | timedOut
  | refused
  | fatal (detail : String)
deriving DecidableEq, Repr

/-- Observable side effects of the probe loop: a connect attempt (with its
1-based attempt number) and a sleep (with its duration in milliseconds). -/
inductive Event
  | connect (attempt : Nat)
  | sleep (ms : Nat)
deriving DecidableEq, Repr

/-- Result of `run` together with its observable effects: `result` is the Rust
`Result<Option<String>>`, `events` the ordered connect/sleep effects, `dbg` the
stderr lines produced by the `debug!` macro. -/
structure RunOut where
  result : Except String (Option String)
  events : List Event
  dbg : List String
deriving DecidableEq, Repr

/-- One `debug!` line: printed to stderr only when the `DEBUG` flag is set. -/
def debugIf (verbose : Bool) (msg : String) : List String :=
  if verbose then [msg] else []

/-- The `for retry in 1..=args.retries` loop of `run`, over the list of
remaining attempt numbers. `env i` is the outcome of the connect attempt number
`i` (the network is external input). On success the loop returns the formatted
`"hostIp:displayNumber"` string; a timeout retries immediately; a refusal
sleeps for the full timeout and then retries; any other error aborts the whole
`run` with that error. -/
def probeGo (verbose : Bool) (env : Nat → ConnectResult) (timeout : Nat)
    (hostIp : String) (displayNumber : Nat) : List Nat → RunOut
  | [] => ⟨.ok none, [], debugIf verbose "retries exhausted, no server found"⟩
  | i :: rest =>
    match env i with
    | .success =>
      ⟨.ok (some (hostIp ++ ":" ++ toString displayNumber)), [.connect i],
        debugIf verbose ("connect attempt " ++ toString i) ++
          debugIf verbose "connection succeeded"⟩
    | .timedOut =>
      let o := probeGo verbose env timeout hostIp displayNumber rest
      ⟨o.result, .connect i :: o.events,
        debugIf verbose ("connect attempt " ++ toString i) ++
          debugIf verbose "connection failed: timed out" ++ o.dbg⟩
    | .refused =>
      let o := probeGo verbose env timeout hostIp displayNumber rest
      ⟨o.result, .connect i :: .sleep timeout :: o.events,
        debugIf verbose ("connect attempt " ++ toString i) ++
          debugIf verbose "connection failed: connection refused" ++ o.dbg⟩
    | .fatal detail =>
      ⟨.error detail, [.connect i],
        debugIf verbose ("connect attempt " ++ toString i) ++
          debugIf verbose ("connection failed: " ++ detail)⟩

/-- The `checked_add` port computation of `run`:
`DISPLAY_PORT_OFFSET.checked_add(args.display_number)` on `u16` values, which
yields the exact sum when it fits in 16 bits and fails (never wraps)
otherwise. -/
def display_port (displayNumber : Nat) : Option Nat :=
  if DISPLAY_PORT_OFFSET + displayNumber ≤ 65535 then
    some (DISPLAY_PORT_OFFSET + displayNumber)
  else
    none

/-- `run`, from the point after argument parsing: `resolved` is the outcome of
the selected host-IP resolution strategy (carrying the display form of the IP),
`displayNumber`, `timeout` (ms) and `retries` come from the arguments, and
`env` is the network. A resolution error or a port overflow aborts before any
connect attempt; otherwise the probe loop runs over attempts `1..=retries`. -/
def run (verbose : Bool) (resolved : Except String String) (displayNumber : Nat)
    (timeout : Nat) (retries : Nat) (env : Nat → ConnectResult) : RunOut :=
  match resolved with
  | .error e => ⟨.error e, [], []⟩
  | .ok hostIp =>
    match display_port displayNumber with
    | none => ⟨.error "display offset overflowed max port number", [], []⟩
    | some port =>
      let o := probeGo verbose env timeout hostIp displayNumber
        (List.range' 1 retries)
      ⟨o.result, o.events,
        debugIf verbose ("connecting to " ++ hostIp ++ ":" ++ toString port) ++
          o.dbg⟩

/-- Exit code, stdout lines and stderr lines of the whole process. -/
structure MainOut where
  exitCode : Nat
  stdout : List String
  stderr : List String
deriving DecidableEq, Repr

/-- `main`: `Ok(Some(s))` prints `s` to stdout and exits 0; `Ok(None)` exits 1
with nothing on stdout; `Err(e)` prints `Error: e` to stderr and exits 2. -/
def main (o : RunOut) : MainOut :=
  match o.result with
  | .ok (some s) => ⟨0, [s], o.dbg⟩
  | .ok none => ⟨1, [], o.dbg⟩
  | .error e => ⟨2, [], o.dbg ++ ["Error: " ++ e]⟩

/-! ### Helper lemmas -/

theorem find_nameserver_append_none (l₁ l₂ : List String)
    (h : ∀ l ∈ l₁, nsToken l = none) :
    find_nameserver (l₁ ++ l₂) = find_nameserver l₂ := by
  induction l₁ with
  | nil => simp
  | cons a as ih =>
    have ha : nsToken a = none := h a (by simp)
    simp only [List.cons_append, find_nameserver, List.findSome?_cons, ha]
    exact ih (fun l hl => h l (by simp [hl]))

theorem find_nameserver_all_none (lns : List String)
    (h : ∀ l ∈ lns, nsToken l = none) : find_nameserver lns = none := by
  induction lns with
  | nil => rfl
  | cons a as ih =>
    have ha : nsToken a = none := h a (by simp)
    simp only [find_nameserver, List.findSome?_cons, ha]
    exact ih (fun l hl => h l (by simp [hl]))

theorem probeGo_verbose_agnostic (b₁ b₂ : Bool) (env : Nat → ConnectResult)
    (timeout : Nat) (host : String) (dn : Nat) (l : List Nat) :
    (probeGo b₁ env timeout host dn l).result =
      (probeGo b₂ env timeout host dn l).result ∧
    (probeGo b₁ env timeout host dn l).events =
      (probeGo b₂ env timeout host dn l).events := by
  induction l with
  | nil => simp [probeGo]
  | cons i rest ih =>
    cases h : env i <;> simp [probeGo, h, ih.1, ih.2]

theorem probeGo_first_success (verbose : Bool) (env : Nat → ConnectResult)
    (timeout : Nat) (host : String) (dn : Nat) :
    ∀ (l₁ : List Nat) (k : Nat) (l₂ : List Nat),
      (∀ j ∈ l₁, env j = .timedOut ∨ env j = .refused) →
      env k = .success →
      (probeGo verbose env timeout host dn (l₁ ++ k :: l₂)).result =
        .ok (some (host ++ ":" ++ toString dn)) ∧
      (∀ j, Event.connect j ∈
          (probeGo verbose env timeout host dn (l₁ ++ k :: l₂)).events →
        j ∈ l₁ ∨ j = k) := by
  intro l₁
  induction l₁ with
  | nil =>
    intro k l₂ _ hk
    constructor
    · simp [probeGo, hk]
    · intro j hj
      simp [probeGo, hk] at hj
      exact Or.inr hj
  | cons i rest ih =>
    intro k l₂ hpre hk
    have hi := hpre i (by simp)
    have hrest : ∀ j ∈ rest, env j = .timedOut ∨ env j = .refused :=
      fun j hj => hpre j (by simp [hj])
    obtain ⟨ihr, ihe⟩ := ih k l₂ hrest hk
    rcases hi with hi | hi
    · refine ⟨?_, ?_⟩
      · simpa only [List.cons_append, probeGo, hi] using ihr
      · intro j hj
        simp only [List.cons_append, probeGo, hi, List.mem_cons,
          Event.connect.injEq] at hj
        rcases hj with hj | hj
        · exact Or.inl (by simp [hj])
        · rcases ihe j hj with h | h
          · exact Or.inl (by simp [h])
          · exact Or.inr h
    · refine ⟨?_, ?_⟩
      · simpa only [List.cons_append, probeGo, hi] using ihr
      · intro j hj
        simp only [List.cons_append, probeGo, hi, List.mem_cons,
          Event.connect.injEq, reduceCtorEq, false_or] at hj
        rcases hj with hj | hj
        · exact Or.inl (by simp [hj])
        · rcases ihe j hj with h | h
          · exact Or.inl (by simp [h])
          · exact Or.inr h

theorem main_stdout_exit_of_result {o₁ o₂ : RunOut} (h : o₁.result = o₂.result) :
    (main o₁).stdout = (main o₂).stdout ∧
    (main o₁).exitCode = (main o₂).exitCode := by
  obtain ⟨r₁, ev₁, d₁⟩ := o₁
  obtain ⟨r₂, ev₂, d₂⟩ := o₂
  change r₁ = r₂ at h
  subst h
  rcases r₁ with e | x
  · simp [main]
  · rcases x with _ | s <;> simp [main]

/-! ### Claims -/

/-- C1: probe scenario of the claim evaluated on the embedded code: every
connect attempt refused, retries = 3, timeout = 100 ms. Exactly 3 connect
attempts are made and the final result is the absent one (`Ok(None)`, the
Unreachable outcome) — but the code performs 3 sleeps of the full timeout, one
after each refused attempt including the final one, where the claim asserts
exactly 2 inter-attempt sleeps and no sleep after the final attempt. -/
theorem C1_refused_probe_eval :
    run false (.ok "172.30.192.1") 1 100 3 (fun _ => ConnectResult.refused) =
      ⟨.ok none,
        [.connect 1, .sleep 100, .connect 2, .sleep 100, .connect 3, .sleep 100],
        []⟩ ∧
    (run false (.ok "172.30.192.1") 1 100 3
        (fun _ => ConnectResult.refused)).events.countP
      (fun e => match e with | .connect _ => true | _ => false) = 3 ∧
    (run false (.ok "172.30.192.1") 1 100 3
        (fun _ => ConnectResult.refused)).events.count (Event.sleep 100) = 3 := by
  refine ⟨by decide, by decide, by decide⟩

/-- C2: per-attempt failure policy of the probe loop. A timed-out attempt
proceeds immediately to the next attempt with no added delay; a refused attempt
sleeps for the full configured timeout before the next attempt; any other
failure aborts at once with `Error(detail)`, performing no further attempts. -/
theorem C2_failure_policy (verbose : Bool) (env : Nat → ConnectResult)
    (timeout : Nat) (host : String) (dn : Nat) (i : Nat) (rest : List Nat) :
    (env i = .timedOut →
      (probeGo verbose env timeout host dn (i :: rest)).result =
        (probeGo verbose env timeout host dn rest).result ∧
      (probeGo verbose env timeout host dn (i :: rest)).events =
        .connect i :: (probeGo verbose env timeout host dn rest).events) ∧
    (env i = .refused →
      (probeGo verbose env timeout host dn (i :: rest)).result =
        (probeGo verbose env timeout host dn rest).result ∧
      (probeGo verbose env timeout host dn (i :: rest)).events =
        .connect i :: .sleep timeout ::
          (probeGo verbose env timeout host dn rest).events) ∧
    (∀ detail, env i = .fatal detail →
      (probeGo verbose env timeout host dn (i :: rest)).result = .error detail ∧
      (probeGo verbose env timeout host dn (i :: rest)).events = [.connect i]) := by
  refine ⟨fun h => ?_, fun h => ?_, fun detail h => ?_⟩ <;> simp [probeGo, h]

/-- C2 witness: the three policy branches at concrete inputs. -/
theorem C2_failure_policy_witness :
    ((probeGo false (fun _ => ConnectResult.timedOut) 100 "h" 1 [1, 2]).events =
      .connect 1 ::
        (probeGo false (fun _ => ConnectResult.timedOut) 100 "h" 1 [2]).events) ∧
    ((probeGo false (fun _ => ConnectResult.refused) 100 "h" 1 [1, 2]).events =
      .connect 1 :: .sleep 100 ::
        (probeGo false (fun _ => ConnectResult.refused) 100 "h" 1 [2]).events) ∧
    (probeGo false (fun _ => ConnectResult.fatal "boom") 100 "h" 1 [1, 2]).result =
      .error "boom" := by
  refine ⟨?_, ?_, ?_⟩
  · exact ((C2_failure_policy false (fun _ => ConnectResult.timedOut) 100 "h" 1 1
      [2]).1 rfl).2
  · exact ((C2_failure_policy false (fun _ => ConnectResult.refused) 100 "h" 1 1
      [2]).2.1 rfl).2
  · exact ((C2_failure_policy false (fun _ => ConnectResult.fatal "boom") 100 "h" 1 1
      [2]).2.2 "boom" rfl).1

/-- C3: if the first successful connect attempt is attempt `k` within the retry
budget, `run` returns the reachable result with the formatted
`"hostIp:displayNumber"` string, no connect attempt after `k` is made, and
`main` prints exactly that string to stdout and exits with code 0. -/
theorem C3_success_short_circuit (verbose : Bool) (host : String)
    (dn timeout retries k : Nat) (env : Nat → ConnectResult)
    (hport : DISPLAY_PORT_OFFSET + dn ≤ 65535)
    (hk1 : 1 ≤ k) (hk2 : k ≤ retries)
    (hfirst : ∀ j, 1 ≤ j → j < k → env j = .timedOut ∨ env j = .refused)
    (hk : env k = .success) :
    (run verbose (.ok host) dn timeout retries env).result =
      .ok (some (host ++ ":" ++ toString dn)) ∧
    (∀ j, Event.connect j ∈
      (run verbose (.ok host) dn timeout retries env).events → j ≤ k) ∧
    main (run verbose (.ok host) dn timeout retries env) =
      ⟨0, [host ++ ":" ++ toString dn],
        (run verbose (.ok host) dn timeout retries env).dbg⟩ := by
  have e1 : 1 + 1 * (k - 1) = k := by omega
  have e2 : retries - (k - 1) + (k - 1) = retries := by omega
  have e3 : retries - (k - 1) = retries - k + 1 := by omega
  have hsplit : List.range' 1 retries =
      List.range' 1 (k - 1) ++ k :: List.range' (k + 1) (retries - k) := by
    have h := List.range'_append 1 (k - 1) (retries - (k - 1)) 1
    rw [e1, e2] at h
    rw [← h, e3, List.range'_succ]
  have hpre : ∀ j ∈ List.range' 1 (k - 1),
      env j = .timedOut ∨ env j = .refused := by
    intro j hj
    rw [List.mem_range'_1] at hj
    exact hfirst j hj.1 (by omega)
  obtain ⟨hres, hmem⟩ := probeGo_first_success verbose env timeout host dn
    (List.range' 1 (k - 1)) k (List.range' (k + 1) (retries - k)) hpre hk
  have hdp : display_port dn = some (DISPLAY_PORT_OFFSET + dn) := by
    simp [display_port, hport]
  have hrr : (run verbose (.ok host) dn timeout retries env).result =
      (probeGo verbose env timeout host dn (List.range' 1 retries)).result := by
    simp [run, hdp]
  have hre : (run verbose (.ok host) dn timeout retries env).events =
      (probeGo verbose env timeout host dn (List.range' 1 retries)).events := by
    simp [run, hdp]
  have hres2 : (run verbose (.ok host) dn timeout retries env).result =
      .ok (some (host ++ ":" ++ toString dn)) := by
    rw [hrr, hsplit]; exact hres
  refine ⟨hres2, ?_, ?_⟩
  · intro j hj
    rw [hre, hsplit] at hj
    rcases hmem j hj with h | h
    · rw [List.mem_range'_1] at h; omega
    · omega
  · simp [main, hres2]

/-- C3 witness: refused on attempt 1, success on attempt 2, retries = 3. -/
theorem C3_success_short_circuit_witness :
    (run false (.ok "10.0.0.1") 1 100 3
        (fun j => if j = 1 then ConnectResult.refused else ConnectResult.success)).result =
      .ok (some "10.0.0.1:1") ∧
    main (run false (.ok "10.0.0.1") 1 100 3
        (fun j => if j = 1 then ConnectResult.refused else ConnectResult.success)) =
      ⟨0, ["10.0.0.1:1"],
        (run false (.ok "10.0.0.1") 1 100 3
          (fun j => if j = 1 then ConnectResult.refused
            else ConnectResult.success)).dbg⟩ := by
  have h := C3_success_short_circuit false "10.0.0.1" 1 100 3 2
    (fun j => if j = 1 then ConnectResult.refused else ConnectResult.success)
    (by decide) (by decide) (by decide)
    (by
      intro j h1 h2
      have hj : j = 1 := by omega
      subst hj
      exact Or.inr rfl)
    rfl
  exact ⟨h.1, h.2.2⟩

/-- C4: whenever 6000 + displayNumber exceeds 65535, the checked port
computation fails, `run` aborts with the overflow error before any connect
attempt and `main` exits on the failure path; and every port the computation
does produce is exactly 6000 + displayNumber, never a wrapped 16-bit value. -/
theorem C4_port_overflow (d : Nat) (hle : d ≤ 65535)
    (hov : 65535 < DISPLAY_PORT_OFFSET + d) :
    display_port d = none ∧
    (∀ (verbose : Bool) (host : String) (timeout retries : Nat)
        (env : Nat → ConnectResult),
      run verbose (.ok host) d timeout retries env =
        ⟨.error "display offset overflowed max port number", [], []⟩ ∧
      main (run verbose (.ok host) d timeout retries env) =
        ⟨2, [], ["Error: display offset overflowed max port number"]⟩) ∧
    (∀ d₂ p, display_port d₂ = some p →
      p = DISPLAY_PORT_OFFSET + d₂ ∧ p ≤ 65535) := by
  have hcond : ¬(DISPLAY_PORT_OFFSET + d ≤ 65535) := by omega
  have hdp : display_port d = none := by simp [display_port, hcond]
  refine ⟨hdp, ?_, ?_⟩
  · intro verbose host timeout retries env
    have hrun : run verbose (.ok host) d timeout retries env =
        ⟨.error "display offset overflowed max port number", [], []⟩ := by
      simp [run, hdp]
    refine ⟨hrun, ?_⟩
    rw [hrun]
    rfl
  · intro d₂ p h
    by_cases hc : DISPLAY_PORT_OFFSET + d₂ ≤ 65535
    · simp [display_port, hc] at h
      omega
    · simp [display_port, hc] at h

/-- C4 witness: the claim at displayNumber = 65535. -/
theorem C4_port_overflow_witness :
    display_port 65535 = none ∧
    run false (.ok "x") 65535 100 1 (fun _ => ConnectResult.success) =
      ⟨.error "display offset overflowed max port number", [], []⟩ ∧
    main (run false (.ok "x") 65535 100 1 (fun _ => ConnectResult.success)) =
      ⟨2, [], ["Error: display offset overflowed max port number"]⟩ := by
  have h := C4_port_overflow 65535 (by decide) (by decide)
  obtain ⟨h1, h2⟩ := h.2.1 false "x" 100 1 (fun _ => ConnectResult.success)
  exact ⟨h.1, h1, h2⟩

/-- C5 counterexample: the resolver file consisting of the single line
`nameserver` has a line whose first token is the keyword `nameserver`, yet
resolution fails with the not-found error (the line has no second token and is
skipped), contradicting the claim that the result is then the IP parsed from
the second token of the first such line and that not-found arises only when no
such line exists. -/
theorem C5_counterexample :
    (∃ l ∈ rustLines "nameserver",
      (splitAsciiWhitespace l).head? = some "nameserver") ∧
    host_ip_from_resolv_conf (fun s : String => some s) "nameserver" =
      .error .notFound := by
  exact ⟨⟨"nameserver", by decide, by decide⟩, by decide⟩

/-- C5 (amended): if some line has first token `nameserver` followed by a
second token, the resolver resolves the second token of the first such line —
returning the parsed IP, or the parse error when it does not parse — ignoring
all later lines; if no line has both tokens, resolution fails with the
not-found error. -/
theorem C5_first_valid_nameserver {α : Type} (parseIp : String → Option α)
    (content : String) :
    (∀ (l₁ l₂ : List String) (line addr : String) (rest : List String),
      rustLines content = l₁ ++ line :: l₂ →
      (∀ l ∈ l₁, nsToken l = none) →
      splitAsciiWhitespace line = "nameserver" :: addr :: rest →
      host_ip_from_resolv_conf parseIp content =
        match parseIp addr with
        | some ip => .ok ip
        | none => .error .parseError) ∧
    ((∀ l ∈ rustLines content, nsToken l = none) →
      host_ip_from_resolv_conf parseIp content = .error .notFound) := by
  constructor
  · intro l₁ l₂ line addr rest hcontent hpre hline
    have htok : nsToken line = some addr := by simp [nsToken, hline]
    have hfind : find_nameserver (rustLines content) = some addr := by
      rw [hcontent, find_nameserver_append_none _ _ hpre]
      simp [find_nameserver, List.findSome?_cons, htok]
    simp [host_ip_from_resolv_conf, hfind]
  · intro h
    have hfind : find_nameserver (rustLines content) = none :=
      find_nameserver_all_none _ h
    simp [host_ip_from_resolv_conf, hfind]

/-- C5 witness: a comment line and a keyword-only line precede the first full
nameserver line; a later nameserver line is ignored. -/
theorem C5_first_valid_nameserver_witness :
    host_ip_from_resolv_conf (fun s : String => some s)
      "# wsl\nnameserver\nnameserver 1.2.3.4 y\nnameserver 5.6.7.8" =
      .ok "1.2.3.4" := by
  exact (C5_first_valid_nameserver (fun s : String => some s)
      "# wsl\nnameserver\nnameserver 1.2.3.4 y\nnameserver 5.6.7.8").1
    ["# wsl", "nameserver"] ["nameserver 5.6.7.8"] "nameserver 1.2.3.4 y"
    "1.2.3.4" ["y"] (by decide) (by decide) (by decide)

/-- C6: decoded route-query handling: an empty top-level array fails with the
not-found error and no warning; more than one record sets the warning flag and
proceeds exactly as processing record 0 alone would; a selected record whose
`dst` field is not the string `default` fails with the validation error. -/
theorem C6_route_contract {α : Type} (parseIp : String → Option α) :
    host_ip_from_route parseIp (Json.arr []) = (.error .notFound, false) ∧
    (∀ (record : Json) (rest : List Json), rest ≠ [] →
      host_ip_from_route parseIp (Json.arr (record :: rest)) =
        ((host_ip_from_route parseIp (Json.arr [record])).1, true)) ∧
    (∀ (record : Json) (rest : List Json),
      (record.index "dst").as_str ≠ some "default" →
      (host_ip_from_route parseIp (Json.arr (record :: rest))).1 =
        .error .dstNotDefault) := by
  refine ⟨rfl, ?_, ?_⟩
  · intro record rest hne
    rcases rest with _ | ⟨r, rs⟩
    · exact absurd rfl hne
    · rfl
  · intro record rest hdst
    simp only [host_ip_from_route]
    simp [route_from_record, hdst]

/-- C6 witness: the three branches at concrete decoded route outputs. -/
theorem C6_route_contract_witness :
    host_ip_from_route (fun s : String => some s) (Json.arr []) =
      (.error .notFound, false) ∧
    host_ip_from_route (fun s : String => some s)
      (Json.arr [Json.obj [("dst", Json.str "default"),
          ("gateway", Json.str "9.9.9.9")], Json.null]) =
      (.ok "9.9.9.9", true) ∧
    (host_ip_from_route (fun s : String => some s)
      (Json.arr [Json.obj [("dst", Json.str "10.0.0.0/8")]])).1 =
      .error .dstNotDefault := by
  have h := C6_route_contract (fun s : String => some s)
  refine ⟨h.1, ?_, ?_⟩
  · exact h.2.1 (Json.obj [("dst", Json.str "default"),
      ("gateway", Json.str "9.9.9.9")]) [Json.null] (by simp)
  · exact h.2.2 (Json.obj [("dst", Json.str "10.0.0.0/8")]) [] (by decide)

/-- C7: the three terminal outcomes map to pairwise distinct exit codes:
success prints the display string to stdout and exits 0; the absent outcome
prints nothing to stdout and exits 1; a hard error prints a message to stderr
and exits 2, distinct from both other codes. -/
theorem C7_exit_code_mapping (o : RunOut) :
    (∀ s, o.result = .ok (some s) → main o = ⟨0, [s], o.dbg⟩) ∧
    (o.result = .ok none →
      main o = ⟨1, [], o.dbg⟩ ∧ (main o).exitCode ≠ 0) ∧
    (∀ e, o.result = .error e →
      main o = ⟨2, [], o.dbg ++ ["Error: " ++ e]⟩ ∧
        (main o).exitCode ≠ 0 ∧ (main o).exitCode ≠ 1) := by
  refine ⟨?_, ?_, ?_⟩
  · intro s hs; simp [main, hs]
  · intro hs; simp [main, hs]
  · intro e he; simp [main, he]

/-- C7 witness: the mapping at one concrete output of each kind. -/
theorem C7_exit_code_mapping_witness :
    main ⟨.ok (some "h:1"), [], []⟩ = ⟨0, ["h:1"], []⟩ ∧
    main ⟨.ok none, [], []⟩ = ⟨1, [], []⟩ ∧
    main ⟨.error "boom", [], []⟩ = ⟨2, [], ["Error: boom"]⟩ := by
  refine ⟨?_, ?_, ?_⟩
  · exact (C7_exit_code_mapping ⟨.ok (some "h:1"), [], []⟩).1 "h:1" rfl
  · exact ((C7_exit_code_mapping ⟨.ok none, [], []⟩).2.1 rfl).1
  · exact ((C7_exit_code_mapping ⟨.error "boom", [], []⟩).2.2 "boom" rfl).1

/-- C8: two runs that differ only in the verbosity flag produce the same
result, the same connect and sleep effects, the same stdout content and the
same exit code; verbosity only gates stderr diagnostics. -/
theorem C8_verbose_noninterference (b₁ b₂ : Bool)
    (resolved : Except String String) (dn timeout retries : Nat)
    (env : Nat → ConnectResult) :
    (run b₁ resolved dn timeout retries env).result =
      (run b₂ resolved dn timeout retries env).result ∧
    (run b₁ resolved dn timeout retries env).events =
      (run b₂ resolved dn timeout retries env).events ∧
    (main (run b₁ resolved dn timeout retries env)).stdout =
      (main (run b₂ resolved dn timeout retries env)).stdout ∧
    (main (run b₁ resolved dn timeout retries env)).exitCode =
      (main (run b₂ resolved dn timeout retries env)).exitCode := by
  have hrr : (run b₁ resolved dn timeout retries env).result =
      (run b₂ resolved dn timeout retries env).result ∧
      (run b₁ resolved dn timeout retries env).events =
        (run b₂ resolved dn timeout retries env).events := by
    rcases resolved with e | hostIp
    · simp [run]
    · rcases hdp : display_port dn with _ | p
      · simp [run, hdp]
      · obtain ⟨h1, h2⟩ := probeGo_verbose_agnostic b₁ b₂ env timeout hostIp dn
          (List.range' 1 retries)
        simp [run, hdp, h1, h2]
  obtain ⟨h3, h4⟩ := main_stdout_exit_of_result hrr.1
  exact ⟨hrr.1, hrr.2, h3, h4⟩

/-- C9: with a retry count of 0 the loop body never runs: given successful
resolution and a valid port, there are no connect attempts and no sleeps, the
result is the absent one, and `main` exits with code 1 and empty stdout. -/
theorem C9_zero_retries (verbose : Bool) (host : String) (dn timeout : Nat)
    (env : Nat → ConnectResult) (hport : DISPLAY_PORT_OFFSET + dn ≤ 65535) :
    (run verbose (.ok host) dn timeout 0 env).result = .ok none ∧
    (run verbose (.ok host) dn timeout 0 env).events = [] ∧
    main (run verbose (.ok host) dn timeout 0 env) =
      ⟨1, [], (run verbose (.ok host) dn timeout 0 env).dbg⟩ := by
  have hdp : display_port dn = some (DISPLAY_PORT_OFFSET + dn) := by
    simp [display_port, hport]
  have hnil : List.range' 1 0 = [] := rfl
  have h1 : (run verbose (.ok host) dn timeout 0 env).result = .ok none := by
    simp [run, hdp, hnil, probeGo]
  have h2 : (run verbose (.ok host) dn timeout 0 env).events = [] := by
    simp [run, hdp, hnil, probeGo]
  exact ⟨h1, h2, by simp [main, h1]⟩

/-- C9 witness: retries = 0 at concrete inputs. -/
theorem C9_zero_retries_witness :
    (run false (.ok "1.2.3.4") 1 100 0 (fun _ => ConnectResult.refused)).events =
      [] ∧
    main (run false (.ok "1.2.3.4") 1 100 0 (fun _ => ConnectResult.refused)) =
      ⟨1, [], []⟩ := by
  have h := C9_zero_retries false "1.2.3.4" 1 100
    (fun _ => ConnectResult.refused) (by decide)
  exact ⟨h.2.1, h.2.2⟩

/-- C10: a line whose first token is `nameserver` but which has no second token
is a non-match: the scan does not select it and continues through the remaining
lines exactly as if the line were absent. -/
theorem C10_keyword_only_line_skipped (line : String)
    (h : splitAsciiWhitespace line = ["nameserver"]) :
    nsToken line = none ∧
    (∀ pre post : List String,
      find_nameserver (pre ++ line :: post) = find_nameserver (pre ++ post)) := by
  have hn : nsToken line = none := by simp [nsToken, h]
  refine ⟨hn, ?_⟩
  intro pre post
  induction pre with
  | nil => simp [find_nameserver, List.findSome?_cons, hn]
  | cons a as ih =>
    cases hna : nsToken a with
    | none =>
      simp only [List.cons_append, find_nameserver, List.findSome?_cons, hna]
      exact ih
    | some v =>
      simp [find_nameserver, List.findSome?_cons, hna]

/-- C10 witness: a keyword-only nameserver line between a comment line and a
full nameserver line is skipped. -/
theorem C10_keyword_only_line_skipped_witness :
    nsToken " nameserver  " = none ∧
    find_nameserver (["# c"] ++ " nameserver  " :: ["nameserver 1.2.3.4"]) =
      find_nameserver (["# c"] ++ ["nameserver 1.2.3.4"]) := by
  have h := C10_keyword_only_line_skipped " nameserver  " (by decide)
  exact ⟨h.1, h.2 ["# c"] ["nameserver 1.2.3.4"]⟩

end WslGetDisplay
